import Mathlib

/-!
Verification of the `ansible_jailexec` FreeBSD jail connection plugin
(`jailexec.py`) against its natural-language specification.

The repository ships the plugin's test-suite but the plugin module itself
is not present under `src/`; the definitions below therefore model the
plugin's behaviour from the specification (each such definition carries a
doc comment starting `Modelled from the spec:`), with the test-suite used
to fix concrete scenario data (command strings, sample configuration).

Modelling conventions:
- Python `None`-or-string arguments become `Option String`.
- Python exceptions become `Except PluginError` results;
  `AnsibleConnectionFailure` and `AnsibleError` are the two error kinds.
- Byte strings (`stdout`/`stderr`) are modelled as `String` (the plugin
  decodes them with UTF-8/replacement; no claim depends on raw bytes).
- Remote side effects (SSH exec / upload / download) are a `Transport`
  record of pure functions; operations additionally return the list of
  transport events they performed, in order, so that claims about which
  remote calls happen can be stated.
-/

namespace Jailexec

/-- The two Ansible error kinds the plugin raises:
`connectionFailure` models `AnsibleConnectionFailure`,
`ansibleError` models `AnsibleError` (including transfer errors). -/
inductive PluginError where
  | connectionFailure (msg : String)
  | ansibleError (msg : String)
deriving DecidableEq, Repr

deriving instance DecidableEq for Except

/-- The message carried by a `PluginError`. -/
def PluginError.msg : PluginError → String
  | .connectionFailure m => m
  | .ansibleError m => m

/-- The forward-slash path separator character. -/
def slash : Char := Char.ofNat 47

/-- The single-quote character (ASCII 39), written via `Char.ofNat`. -/
def squoteChar : Char := Char.ofNat 39

/-- The double-quote character (ASCII 34). -/
def dquoteChar : Char := Char.ofNat 34

/-- A one-character string holding a single quote. -/
def sq : String := String.singleton squoteChar

/-- `startsWithChars pre l` : `pre` is an initial run of `l` (char lists). -/
def startsWithChars : List Char → List Char → Bool
  | [], _ => true
  | _ :: _, [] => false
  | a :: as, b :: bs => a == b && startsWithChars as bs

/-- `hasSubChars sub l` : `sub` occurs contiguously inside `l`. -/
def hasSubChars (sub : List Char) : List Char → Bool
  | [] => startsWithChars sub []
  | c :: cs => startsWithChars sub (c :: cs) || hasSubChars sub cs

/-- `strContains s sub` : the string `sub` occurs as a substring of `s`. -/
def strContains (s sub : String) : Bool :=
  hasSubChars sub.data s.data

/-- Split a character list into the segments delimited by `sep`
(the semantics of Python's `str.split(sep)` for a one-character
separator: never returns an empty list, keeps empty segments). -/
def splitSegments (sep : Char) : List Char → List (List Char)
  | [] => [[]]
  | c :: cs =>
    if c == sep then [] :: splitSegments sep cs
    else
      match splitSegments sep cs with
      | [] => [[c]]
      | seg :: segs => (c :: seg) :: segs

/-- The shell metacharacters the plugin treats as dangerous:
`;`, `|`, `&`, `$`, `(`, `)` and backtick. -/
def dangerousChars : List Char :=
  [';', '|', '&', '$', '(', ')', Char.ofNat 96]

/-- `isWhitespaceOnly s` : every character of `s` is whitespace
(also true for the empty string). -/
def isWhitespaceOnly (s : String) : Bool :=
  s.data.all (·.isWhitespace)

/-- `hasDotDotSegment s` : splitting `s` on `/` yields a segment that is
exactly `..` (discrete-segment path-traversal detection, per the spec:
split on the separator, compare each segment, no substring matching). -/
def hasDotDotSegment (s : String) : Bool :=
  (splitSegments slash s.data).any (· == ['.', '.'])

/-- `hasDangerousChar s` : some character of `s` is a shell metacharacter
from `dangerousChars`. -/
def hasDangerousChar (s : String) : Bool :=
  s.data.any (fun c => dangerousChars.contains c)

/-- Modelled from the spec: `validate_path_security` of `jailexec.py`
(absent from `src/`).  `None` or the empty string pass; a non-empty
whitespace-only string, a `..` path segment, or any shell metacharacter
`; | & $ ( ) \`` fails with an `AnsibleError` whose message contains
"dangerous pattern"; every other path passes. -/
def validate_path_security : Option String → Except PluginError Unit
  | none => .ok ()
  | some p =>
    if p.data.isEmpty then .ok ()
    else if isWhitespaceOnly p then
      .error (.ansibleError ("Path contains dangerous pattern: " ++ p))
    else if hasDotDotSegment p then
      .error (.ansibleError ("Path contains dangerous pattern: " ++ p))
    else if hasDangerousChar p then
      .error (.ansibleError ("Path contains dangerous pattern: " ++ p))
    else .ok ()

/-- The character class allowed after the first character of a jail name:
ASCII alphanumeric, `.`, `_` or `-`. -/
def jailNameTailChar (c : Char) : Bool :=
  c.isAlphanum || c == '.' || c == '_' || c == '-'

/-- `matchesJailNameGrammar s` : `s` matches `^[A-Za-z0-9][A-Za-z0-9._-]*$`
(non-empty, ASCII-alphanumeric first character, tail in the class). -/
def matchesJailNameGrammar (s : String) : Bool :=
  match s.data with
  | [] => false
  | c :: cs => c.isAlphanum && cs.all jailNameTailChar

/-- Modelled from the spec: `validate_jail_name` of `jailexec.py`
(absent from `src/`).  Empty/`None`/whitespace-only fails
"cannot be empty"; length over 255 fails "too long"; a grammar
mismatch fails "Invalid jail name format" naming the allowed
alphanumeric character class; otherwise it succeeds.  All failures are
`AnsibleConnectionFailure` (the typed validation error of the tests). -/
def validate_jail_name : Option String → Except PluginError Unit
  | none => .error (.connectionFailure "Jail name cannot be empty")
  | some s =>
    if isWhitespaceOnly s then
      .error (.connectionFailure "Jail name cannot be empty")
    else if s.length > 255 then
      .error (.connectionFailure ("Jail name too long (maximum 255 characters): " ++ s))
    else if matchesJailNameGrammar s then .ok ()
    else
      .error (.connectionFailure
        ("Invalid jail name format (must start with alphanumeric, then alphanumeric, dots, underscores or hyphens): " ++ s))

/-- Modelled from the spec: the core of `_transform_path` of `jailexec.py`
(absent from `src/`) on an actual (non-`None`) string.  Empty input passes
through; otherwise `validate_path_security` runs first and its failure
propagates; a leading `~` (with any username portion, up to the first `/`)
is stripped and the remainder is rejoined onto the configured staging root
`remote_tmp`; a non-leading `~` and all other paths pass through. -/
def transformStr (remote_tmp p : String) : Except PluginError String :=
  match validate_path_security (some p) with
  | .error e => .error e
  | .ok _ =>
    match p.data with
    | [] => .ok p
    | c :: cs =>
      if c == '~' then
        .ok (remote_tmp ++ String.mk (cs.dropWhile (· != slash)))
      else .ok p

/-- Modelled from the spec: `_transform_path` of `jailexec.py`
(absent from `src/`): `None` passes through unchanged, a string is
transformed by `transformStr`. -/
def _transform_path (remote_tmp : String) :
    Option String → Except PluginError (Option String)
  | none => .ok none
  | some p => (transformStr remote_tmp p).map some

/-- The characters `shlex.quote` leaves unquoted:
ASCII alphanumerics and `@ % + = : , . / - _`. -/
def shlexSafeChar (c : Char) : Bool :=
  c.isAlphanum || c == '@' || c == '%' || c == '+' || c == '=' ||
  c == ':' || c == ',' || c == '.' || c == '/' || c == '-' || c == '_'

/-- The replacement `shlex.quote` uses for an embedded single quote:
the five characters quote, double-quote, quote, double-quote, quote. -/
def squoteEscape : String :=
  String.mk [squoteChar, dquoteChar, squoteChar, dquoteChar, squoteChar]

/-- Modelled from the spec: POSIX shell quoting as done by Python's
`shlex.quote` — the empty string becomes two quotes, a string of only
safe characters is returned unchanged, anything else is wrapped in single
quotes with embedded single quotes escaped. -/
def shellQuote (s : String) : String :=
  if s.data.isEmpty then sq ++ sq
  else if s.data.all shlexSafeChar then s
  else
    sq ++ (s.data.map (fun c =>
      if c == squoteChar then squoteEscape else String.singleton c)).foldl
        (· ++ ·) "" ++ sq

/-- The privilege-escalation part of a command line: the escalation
method followed by a space, or nothing when no escalation is configured. -/
def escalPart (escalation : String) : String :=
  if escalation.data.isEmpty then "" else escalation ++ " "

/-- The connection settings a command build needs: jail name, jail user,
privilege-escalation method (empty = none) and the target shell. -/
structure JailSettings where
  jail_name : String
  jail_user : String
  privilege_escalation : String
  executable : String
deriving Repr, DecidableEq

/-- Modelled from the spec: composition of the remote command line
`[<escalation>] jexec [-u <user>] <jail> <shell> -c <quoted-payload>`.
The jail name is re-validated defensively; the `-u <user>` switch is
inserted only when the user differs from the implicit default `root`. -/
def build_jail_command (st : JailSettings) (payload : String) :
    Except PluginError String :=
  match validate_jail_name (some st.jail_name) with
  | .error e => .error e
  | .ok _ =>
    .ok (escalPart st.privilege_escalation ++ "jexec " ++
      (if st.jail_user.data.isEmpty || st.jail_user == "root" then ""
       else "-u " ++ shellQuote st.jail_user ++ " ") ++
      shellQuote st.jail_name ++ " " ++ st.executable ++ " -c " ++
      shellQuote payload)

/-- A command payload as handed to `exec_command`: either a single
string or a list of argument tokens in which `None` entries may occur. -/
inductive Command where
  | str (s : String)
  | tokens (ts : List (Option String))

/-- Modelled from the spec: payload extraction of `exec_command`.
A string payload must not be empty/whitespace-only
("Command cannot be empty"); a token list drops `None` tokens and must
then be non-empty ("Command list cannot be empty"); the surviving tokens
are joined with single spaces. -/
def payloadOfCommand : Command → Except PluginError String
  | .str s =>
    if isWhitespaceOnly s then
      .error (.ansibleError "Command cannot be empty")
    else .ok s
  | .tokens ts =>
    let filtered := ts.filterMap id
    if filtered.isEmpty then
      .error (.ansibleError "Command list cannot be empty")
    else .ok (String.intercalate " " filtered)

/-- Outcome of one transport-level `exec_command` call: a result triple
(exit code, stdout, stderr) or a raised transport exception. -/
inductive ExecOutcome where
  | res (rc : Int) (stdout stderr : String)
  | exn (msg : String)
deriving Repr, DecidableEq

/-- The transport capability interface (the underlying SSH connection):
`exec` runs a command line; `upload`/`download` move a file and return
`none` on success or `some msg` when they raise. -/
structure Transport where
  exec : String → ExecOutcome
  upload : String → String → Option String
  download : String → String → Option String

/-- Modelled from the spec: `exec_command` of `jailexec.py`
(absent from `src/`), with the connection already established.  The
payload is extracted (empty checks), the command line is built via
`build_jail_command`, executed over the transport, and the transport's
result triple is returned unchanged; a transport exception is wrapped as
"Failed to execute command". -/
def exec_command (st : JailSettings) (exec : String → ExecOutcome)
    (cmd : Command) : Except PluginError (Int × String × String) :=
  match payloadOfCommand cmd with
  | .error e => .error e
  | .ok payload =>
    match build_jail_command st payload with
    | .error e => .error e
    | .ok line =>
      match exec line with
      | .res rc out err => .ok (rc, out, err)
      | .exn m => .error (.ansibleError ("Failed to execute command: " ++ m))

/-- POSIX `os.path.dirname`: everything up to the last `/` with trailing
slashes stripped, unless that head consists only of slashes (then it is
kept, so `dirname "/x" = "/"`); a path with no slash has dirname `""`. -/
def dirname (p : String) : String :=
  let head := ((p.data.reverse.dropWhile (· != slash)).reverse)
  if head.all (· == slash) then String.mk head
  else String.mk ((head.reverse.dropWhile (· == slash)).reverse)

/-- One remote side effect performed by a file operation, in order:
a command executed over the transport, an upload, or a download. -/
inductive Ev where
  | cmd (line : String)
  | upload (lpath rpath : String)
  | download (rpath lpath : String)
deriving Repr, DecidableEq

/-- Whether an event is a transport download call. -/
def Ev.isDownload : Ev → Bool
  | .download _ _ => true
  | _ => false

/-- Modelled from the spec: `put_file` of `jailexec.py` (absent from
`src/`), with the connection established and the jail root already
resolved to `jail_root`; `staging` is the uniquely named host-side
staging file.  Steps: transform+validate the destination; create the
jail-side target directory under escalation (failure → "Failed to create
target directory"); upload to the staging file (failure → "File transfer
failed"); harden permissions with `chmod 600` (the spec names no failure
for this step, so its result is not checked); move the staging file into
the jail under escalation — on failure issue a best-effort `rm -f` of
the staging file, whose own outcome is ignored, and fail "Failed to move
file to jail directory".  Returns the result and the ordered list of
transport events performed. -/
def put_file (st : JailSettings) (remote_tmp : String) (tr : Transport)
    (jail_root staging in_path out_path : String) :
    Except PluginError Unit × List Ev :=
  match transformStr remote_tmp out_path with
  | .error e => (.error e, [])
  | .ok dst =>
    let mkdirCmd := escalPart st.privilege_escalation ++ "mkdir -p " ++
      jail_root ++ dirname dst
    match tr.exec mkdirCmd with
    | .res rc _ err =>
      if rc == 0 then
        match tr.upload in_path staging with
        | some m =>
          (.error (.ansibleError ("File transfer failed: " ++ m)),
           [.cmd mkdirCmd, .upload in_path staging])
        | none =>
          let chmodCmd := "chmod 600 " ++ staging
          let preEvs : List Ev :=
            [.cmd mkdirCmd, .upload in_path staging, .cmd chmodCmd]
          let mvCmd := escalPart st.privilege_escalation ++ "mv " ++
            staging ++ " " ++ jail_root ++ dst
          let rmCmd := "rm -f " ++ staging
          match tr.exec mvCmd with
          | .res mrc _ merr =>
            if mrc == 0 then (.ok (), preEvs ++ [.cmd mvCmd])
            else
              (.error (.ansibleError
                 ("Failed to move file to jail directory: " ++ merr)),
               preEvs ++ [.cmd mvCmd, .cmd rmCmd])
          | .exn m =>
            (.error (.ansibleError
               ("Failed to move file to jail directory: " ++ m)),
             preEvs ++ [.cmd mvCmd, .cmd rmCmd])
      else
        (.error (.ansibleError ("Failed to create target directory: " ++ err)),
         [.cmd mkdirCmd])
    | .exn m =>
      (.error (.ansibleError ("Failed to create target directory: " ++ m)),
       [.cmd mkdirCmd])

/-- Modelled from the spec: `fetch_file` of `jailexec.py` (absent from
`src/`), with the connection established and the jail root resolved.
Steps: transform+validate the source; existence check
`test -f <jailroot>/<src>` — a non-zero exit fails "does not exist in
jail" and no download is attempted; otherwise download directly from the
jail path (failure → "Failed to fetch file from jail").  Returns the
result and the ordered list of transport events performed. -/
def fetch_file (_st : JailSettings) (remote_tmp : String) (tr : Transport)
    (jail_root in_path out_path : String) :
    Except PluginError Unit × List Ev :=
  match transformStr remote_tmp in_path with
  | .error e => (.error e, [])
  | .ok src =>
    let testCmd := "test -f " ++ jail_root ++ src
    match tr.exec testCmd with
    | .res rc _ _ =>
      if rc == 0 then
        match tr.download (jail_root ++ src) out_path with
        | none =>
          (.ok (), [.cmd testCmd, .download (jail_root ++ src) out_path])
        | some m =>
          (.error (.ansibleError ("Failed to fetch file from jail: " ++ m)),
           [.cmd testCmd, .download (jail_root ++ src) out_path])
      else
        (.error (.ansibleError ("File " ++ src ++ " does not exist in jail")),
         [.cmd testCmd])
    | .exn _ =>
      (.error (.ansibleError ("File " ++ src ++ " does not exist in jail")),
       [.cmd testCmd])

/-- The first line of a string: everything before the first newline. -/
def firstLine (s : String) : String :=
  String.mk (s.data.takeWhile (· != Char.ofNat 10))

/-- Strip trailing whitespace (including a trailing newline). -/
def rstrip (s : String) : String :=
  String.mk ((s.data.reverse.dropWhile (·.isWhitespace)).reverse)

/-- The full connection state the jail-root resolver and `close` act on:
the settings plus the jail-root cache and the connected flag. -/
structure ConnState where
  settings : JailSettings
  jail_root_cache : Option String
  connected : Bool
deriving Repr, DecidableEq

/-- The jail-root discovery command line, `jls -j <jail> path` under the
configured escalation (the jail name shell-quoted). -/
def discoveryCmd (st : JailSettings) : String :=
  escalPart st.privilege_escalation ++ "jls -j " ++
    shellQuote st.jail_name ++ " path"

/-- Modelled from the spec: `_get_jail_root` of `jailexec.py` (absent
from `src/`).  A cached value is returned with no remote call; otherwise
the discovery command runs over the transport — a transport exception or
a non-zero exit fails "Could not determine jail root path"; on success
the first output line with trailing whitespace stripped is the root,
which is cached, except that an empty result fails "Empty jail root
path".  Returns the result, the updated state and the list of transport
events performed. -/
def _get_jail_root (st : ConnState) (tr : Transport) :
    Except PluginError String × ConnState × List Ev :=
  match st.jail_root_cache with
  | some r => (.ok r, st, [])
  | none =>
    let cmd := discoveryCmd st.settings
    match tr.exec cmd with
    | .exn m =>
      (.error (.ansibleError ("Could not determine jail root path: " ++ m)),
       st, [.cmd cmd])
    | .res rc out err =>
      if rc == 0 then
        let root := rstrip (firstLine out)
        if root.data.isEmpty then
          (.error (.ansibleError "Empty jail root path returned"),
           st, [.cmd cmd])
        else
          (.ok root, { st with jail_root_cache := some root }, [.cmd cmd])
      else
        (.error (.ansibleError ("Could not determine jail root path: " ++ err)),
         st, [.cmd cmd])

/-- Modelled from the spec: `close` of `jailexec.py` (absent from
`src/`): releases the transport and clears the connection-alive flag and
the jail-root cache; the settings survive. -/
def close (st : ConnState) : ConnState :=
  { st with jail_root_cache := none, connected := false }

/-- A configuration option value as returned by `get_option`:
a string, an integer, or unset. -/
inductive ConfigValue where
  | vstr (s : String)
  | vint (n : Int)
  | vnone
deriving Repr, DecidableEq

/-- The default connection timeout used when the configured value is not
a valid integer. -/
def defaultTimeout : Int := 30

/-- The configuration `_get_jail_configuration` produces. -/
structure JailConfig where
  jail_host : String
  jail_name : String
  jail_user : String
  privilege_escalation : String
  remote_tmp : String
  connection_timeout : Int
deriving Repr, DecidableEq

/-- Modelled from the spec: `_get_jail_configuration` of `jailexec.py`
(absent from `src/`).  Reads the options: a missing/blank host fails
"No jail host specified"; a `jail_name` override is validated by
`validate_jail_name`; the escalation method must be `doas`, `sudo` or
`none`; `remote_tmp` must be an absolute path passing path-security
validation; a non-integer/invalid `timeout` silently falls back to
`defaultTimeout` while an integer value is stored unchanged. -/
def _get_jail_configuration (current_jail_name current_user : String)
    (opt : String → ConfigValue) : Except PluginError JailConfig :=
  match opt "jail_host" with
  | .vstr host =>
    if isWhitespaceOnly host then
      .error (.connectionFailure "No jail host specified")
    else
      match
        (match opt "jail_name" with
         | .vstr s =>
           match validate_jail_name (some s) with
           | .error e => Except.error e
           | .ok _ => Except.ok s
         | _ => Except.ok current_jail_name) with
      | .error e => .error e
      | .ok jname =>
        let user := match opt "jail_user" with
          | .vstr s => s
          | _ => current_user
        match
          (match opt "privilege_escalation" with
           | .vstr s =>
             if s == "doas" || s == "sudo" || s == "none" then Except.ok s
             else Except.error (PluginError.connectionFailure
               ("Invalid privilege escalation method: " ++ s))
           | _ => Except.ok "doas") with
        | .error e => .error e
        | .ok esc =>
          match
            (match opt "remote_tmp" with
             | .vstr s =>
               if s.data.head? != some slash then
                 Except.error (PluginError.connectionFailure
                   "remote_tmp must be an absolute path")
               else
                 match validate_path_security (some s) with
                 | .error e => Except.error (PluginError.connectionFailure
                     ("Invalid remote_tmp: " ++ e.msg))
                 | .ok _ => Except.ok s
             | _ => Except.ok "/tmp/.ansible/tmp") with
          | .error e => .error e
          | .ok rtmp =>
            let tout := match opt "timeout" with
              | .vint n => n
              | _ => defaultTimeout
            .ok ⟨host, jname, user, esc, rtmp, tout⟩
  | _ => .error (.connectionFailure "No jail host specified")

/-! ## Concrete scenario data (from the test-suite) used by witnesses -/

/-- The test-suite's standard settings: jail `testjail`, user `root`,
escalation `doas`, shell `/bin/sh`. -/
def testSettings : JailSettings := ⟨"testjail", "root", "doas", "/bin/sh"⟩

/-- The command line the `testjail`/`root`/`doas` scenario must build for
the payload `echo hello`: `doas jexec testjail /bin/sh -c 'echo hello'`. -/
def echoHelloLine : String :=
  "doas jexec testjail /bin/sh -c " ++ sq ++ "echo hello" ++ sq

/-- A transport exec function that answers the expected `echo hello`
line with exit 0 and stdout `hello\n`, and throws on anything else. -/
def echoHelloExec : String → ExecOutcome := fun line =>
  if line == echoHelloLine then .res 0 "hello\n" "" else .exn "unexpected command"

/-- A transport whose `mv` command fails while everything else succeeds,
reproducing the move-failure scenario of `test_put_file_move_fails`. -/
def moveFailTransport : Transport :=
  ⟨fun line => if strContains line "mv " then .res 1 "" "Move failed"
    else .res 0 "" "",
   fun _ _ => none,
   fun _ _ => none⟩

/-- A transport whose every command exits 1, reproducing the missing
remote file scenario of `test_fetch_file_not_exists`. -/
def allFailTransport : Transport :=
  ⟨fun _ => .res 1 "" "", fun _ _ => none, fun _ _ => none⟩

/-- A transport whose every command exits 0 with stdout
`/jail/testjail\n`, as in the jail-root discovery tests. -/
def jailRootTransport : Transport :=
  ⟨fun _ => .res 0 "/jail/testjail\n" "", fun _ _ => none, fun _ _ => none⟩

/-- A fresh connection state for `testSettings`: no cached jail root. -/
def freshState : ConnState := ⟨testSettings, none, true⟩

/-- A transport whose every command raises a transport exception. -/
def exnTransport : Transport :=
  ⟨fun _ => .exn "SSH failure", fun _ _ => none, fun _ _ => none⟩

/-- A transport whose every command exits 0 with empty output. -/
def emptyOutTransport : Transport :=
  ⟨fun _ => .res 0 "" "", fun _ _ => none, fun _ _ => none⟩

/-- The test-suite's sample configuration, parameterised by the value of
the `timeout` option. -/
def sampleOpts (tv : ConfigValue) : String → ConfigValue := fun k =>
  if k == "jail_host" then .vstr "freebsd-host.example.com"
  else if k == "jail_name" then .vstr "testjail"
  else if k == "jail_user" then .vstr "root"
  else if k == "privilege_escalation" then .vstr "doas"
  else if k == "remote_tmp" then .vstr "/tmp/.ansible/tmp"
  else if k == "timeout" then tv
  else .vnone

/-! ## Shared helper lemmas -/

theorem startsWithChars_append (sub l1 l2 : List Char)
    (h : startsWithChars sub l1 = true) :
    startsWithChars sub (l1 ++ l2) = true := by
  induction sub generalizing l1 with
  | nil => rfl
  | cons a as ih =>
    cases l1 with
    | nil => simp [startsWithChars] at h
    | cons b bs =>
      simp only [startsWithChars, Bool.and_eq_true] at h
      simp only [List.cons_append, startsWithChars, Bool.and_eq_true]
      exact ⟨h.1, ih bs h.2⟩

theorem hasSubChars_append_left (sub l1 l2 : List Char)
    (h : hasSubChars sub l1 = true) :
    hasSubChars sub (l1 ++ l2) = true := by
  induction l1 with
  | nil =>
    cases sub with
    | nil => cases l2 <;> simp [hasSubChars, startsWithChars]
    | cons a as => simp [hasSubChars, startsWithChars] at h
  | cons c cs ih =>
    simp only [hasSubChars, Bool.or_eq_true] at h
    simp only [List.cons_append, hasSubChars, Bool.or_eq_true]
    cases h with
    | inl h => exact Or.inl (startsWithChars_append _ _ _ h)
    | inr h => exact Or.inr (ih h)

theorem hasSubChars_append_right (sub l1 l2 : List Char)
    (h : hasSubChars sub l2 = true) :
    hasSubChars sub (l1 ++ l2) = true := by
  induction l1 with
  | nil => exact h
  | cons c cs ih =>
    simp only [List.cons_append, hasSubChars, Bool.or_eq_true]
    exact Or.inr ih

theorem strContains_append_left (a b sub : String)
    (h : strContains a sub = true) :
    strContains (a ++ b) sub = true := by
  simp only [strContains, String.data_append]
  exact hasSubChars_append_left _ _ _ h

theorem strContains_append_right (a b sub : String)
    (h : strContains b sub = true) :
    strContains (a ++ b) sub = true := by
  simp only [strContains, String.data_append]
  exact hasSubChars_append_right _ _ _ h

theorem alnum_not_ws {c : Char} (h : c.isAlphanum = true) :
    c.isWhitespace = false := by
  by_contra hw
  rw [Bool.not_eq_false] at hw
  have hd : ((c = ' ' ∨ c = Char.ofNat 9) ∨ c = Char.ofNat 13) ∨ c = Char.ofNat 10 := by
    simpa [Char.isWhitespace, decide_eq_true_eq] using hw
  rcases hd with ((h1 | h1) | h1) | h1 <;> subst h1 <;> exact absurd h (by decide)

theorem data_isEmpty_false {s : String} (h : s ≠ "") :
    s.data.isEmpty = false := by
  cases s with
  | mk l =>
    cases l with
    | nil => exact absurd rfl h
    | cons c cs => rfl

/-! ## Bridging lemmas between the Bool predicates and their Prop forms -/

theorem isWhitespaceOnly_iff (s : String) :
    isWhitespaceOnly s = true ↔ ∀ c ∈ s.data, c.isWhitespace = true := by
  simp [isWhitespaceOnly, List.all_eq_true]

theorem hasDotDotSegment_iff (s : String) :
    hasDotDotSegment s = true ↔ ['.', '.'] ∈ splitSegments slash s.data := by
  simp [hasDotDotSegment, List.any_eq_true]

theorem hasDangerousChar_iff (s : String) :
    hasDangerousChar s = true ↔ ∃ c ∈ s.data, c ∈ dangerousChars := by
  simp [hasDangerousChar, List.any_eq_true, List.elem_iff]

/-! ## C1 -/

/-- C1: `validate_path_security` accepts `None` and the empty string;
every non-empty string that is whitespace-only, or contains `..` as a
discrete path segment, or contains one of the shell metacharacters
`; | & $ ( ) \``, fails with an error whose message contains
"dangerous pattern"; every other path passes. -/
theorem C1_validate_path_security :
    validate_path_security none = .ok () ∧
    validate_path_security (some "") = .ok () ∧
    (∀ s : String, s ≠ "" →
      ((∀ c ∈ s.data, c.isWhitespace = true) ∨
       ['.', '.'] ∈ splitSegments slash s.data ∨
       (∃ c ∈ s.data, c ∈ dangerousChars)) →
      ∃ m, validate_path_security (some s) =
          .error (.ansibleError m) ∧
        strContains m "dangerous pattern" = true) ∧
    (∀ s : String, s ≠ "" →
      ¬ (∀ c ∈ s.data, c.isWhitespace = true) →
      ['.', '.'] ∉ splitSegments slash s.data →
      (∀ c ∈ s.data, c ∉ dangerousChars) →
      validate_path_security (some s) = .ok ()) := by
  refine ⟨rfl, rfl, ?_, ?_⟩
  · intro s hs hbad
    have hne : s.data.isEmpty = false := data_isEmpty_false hs
    refine ⟨"Path contains dangerous pattern: " ++ s, ?_,
      strContains_append_left _ _ _ (by decide)⟩
    by_cases h1 : isWhitespaceOnly s = true
    · simp [validate_path_security, hne, h1]
    · by_cases h2 : hasDotDotSegment s = true
      · simp [validate_path_security, hne, h1, h2]
      · by_cases h3 : hasDangerousChar s = true
        · simp [validate_path_security, hne, h1, h2, h3]
        · exfalso
          rcases hbad with hb | hb | hb
          · exact h1 ((isWhitespaceOnly_iff s).mpr hb)
          · exact h2 ((hasDotDotSegment_iff s).mpr hb)
          · exact h3 ((hasDangerousChar_iff s).mpr hb)
  · intro s hs h1 h2 h3
    have hne : s.data.isEmpty = false := data_isEmpty_false hs
    have b1 : isWhitespaceOnly s = false := by
      rw [Bool.eq_false_iff]
      exact fun hh => h1 ((isWhitespaceOnly_iff s).mp hh)
    have b2 : hasDotDotSegment s = false := by
      rw [Bool.eq_false_iff]
      exact fun hh => h2 ((hasDotDotSegment_iff s).mp hh)
    have b3 : hasDangerousChar s = false := by
      rw [Bool.eq_false_iff]
      exact fun hh => by
        obtain ⟨c, hc, hcd⟩ := (hasDangerousChar_iff s).mp hh
        exact h3 c hc hcd
    simp [validate_path_security, hne, b1, b2, b3]

/-- C1 witness: concrete instances of C1 — the traversal path
`/path/with/../traversal` is rejected with a "dangerous pattern" error
and the ordinary path `/tmp/testfile` passes. -/
theorem C1_validate_path_security_witness :
    (∃ m, validate_path_security (some "/path/with/../traversal") =
        .error (.ansibleError m) ∧
      strContains m "dangerous pattern" = true) ∧
    validate_path_security (some "/tmp/testfile") = .ok () := by
  constructor
  · exact C1_validate_path_security.2.2.1 "/path/with/../traversal"
      (by decide) (Or.inr (Or.inl (by decide)))
  · exact C1_validate_path_security.2.2.2 "/tmp/testfile" (by decide)
      (by decide) (by decide) (by decide)

/-! ## C2 -/

theorem jailNameTailChar_iff (d : Char) :
    jailNameTailChar d = true ↔
      (d.isAlphanum = true ∨ d = '.' ∨ d = '_' ∨ d = '-') := by
  simp [jailNameTailChar, Bool.or_eq_true, beq_iff_eq, or_assoc]

theorem matchesJailNameGrammar_iff (s : String) :
    matchesJailNameGrammar s = true ↔
      ∃ c cs, s.data = c :: cs ∧ c.isAlphanum = true ∧
        ∀ d ∈ cs, (d.isAlphanum = true ∨ d = '.' ∨ d = '_' ∨ d = '-') := by
  cases s with
  | mk l =>
    cases l with
    | nil => simp [matchesJailNameGrammar]
    | cons c cs =>
      simp only [matchesJailNameGrammar, Bool.and_eq_true, List.all_eq_true]
      constructor
      · rintro ⟨h1, h2⟩
        exact ⟨c, cs, rfl, h1, fun d hd => (jailNameTailChar_iff d).mp (h2 d hd)⟩
      · rintro ⟨c2, cs2, heq, h1, h2⟩
        obtain ⟨rfl, rfl⟩ := List.cons.injEq .. |>.mp heq
        exact ⟨h1, fun d hd => (jailNameTailChar_iff d).mpr (h2 d hd)⟩

set_option maxRecDepth 8192 in
/-- C2: `validate_jail_name` accepts exactly the strings matching
`^[A-Za-z0-9][A-Za-z0-9._-]*$` of length at most 255; every other input
(including `None`) fails with a typed validation error
(`AnsibleConnectionFailure`); the 255-character boundary name is
accepted while the 256-character one is rejected with "too long". -/
theorem C2_validate_jail_name :
    (∀ s : String,
      validate_jail_name (some s) = .ok () ↔
        ((∃ c cs, s.data = c :: cs ∧ c.isAlphanum = true ∧
            ∀ d ∈ cs, (d.isAlphanum = true ∨ d = '.' ∨ d = '_' ∨ d = '-')) ∧
         s.length ≤ 255)) ∧
    (∀ s : String, validate_jail_name (some s) = .ok () ∨
      ∃ m, validate_jail_name (some s) = .error (.connectionFailure m)) ∧
    (∃ m, validate_jail_name none = .error (.connectionFailure m)) ∧
    validate_jail_name (some (String.mk (List.replicate 255 'a'))) = .ok () ∧
    (∃ m, validate_jail_name (some (String.mk (List.replicate 256 'a'))) =
        .error (.connectionFailure m) ∧ strContains m "too long" = true) := by
  refine ⟨?_, ?_, ⟨_, rfl⟩, by decide, ?_⟩
  · intro s
    by_cases h1 : isWhitespaceOnly s = true
    · simp only [validate_jail_name, h1, if_true]
      constructor
      · intro h; exact Except.noConfusion h
      · rintro ⟨⟨c, cs, heq, hc, _⟩, _⟩
        have hcmem : c ∈ s.data := heq ▸ List.mem_cons_self c cs
        have hw := (isWhitespaceOnly_iff s).mp h1 c hcmem
        rw [alnum_not_ws hc] at hw
        exact Bool.noConfusion hw
    · by_cases h2 : s.length > 255
      · simp only [validate_jail_name, h1, if_false, if_pos h2]
        constructor
        · intro h; exact Except.noConfusion h
        · rintro ⟨-, hle⟩; omega
      · by_cases h3 : matchesJailNameGrammar s = true
        · simp only [validate_jail_name, h1, if_false, if_neg h2, h3, if_true]
          exact iff_of_true rfl
            ⟨(matchesJailNameGrammar_iff s).mp h3, by omega⟩
        · simp only [validate_jail_name, h1, if_false, if_neg h2, h3]
          constructor
          · intro h; exact Except.noConfusion h
          · rintro ⟨hg, -⟩
            exact (h3 ((matchesJailNameGrammar_iff s).mpr hg)).elim
  · intro s
    by_cases h1 : isWhitespaceOnly s = true
    · exact Or.inr ⟨"Jail name cannot be empty",
        by simp [validate_jail_name, h1]⟩
    · by_cases h2 : s.length > 255
      · exact Or.inr ⟨"Jail name too long (maximum 255 characters): " ++ s,
          by simp [validate_jail_name, h1, h2]⟩
      · by_cases h3 : matchesJailNameGrammar s = true
        · exact Or.inl (by simp [validate_jail_name, h1, h2, h3])
        · exact Or.inr
            ⟨"Invalid jail name format (must start with alphanumeric, then alphanumeric, dots, underscores or hyphens): " ++ s,
             by simp [validate_jail_name, h1, h2, h3]⟩
  · refine ⟨"Jail name too long (maximum 255 characters): " ++
      String.mk (List.replicate 256 'a'), by decide, ?_⟩
    exact strContains_append_left _ _ _ (by decide)

/-- C2 witness: concrete instances of C2 — `testjail` is accepted and
`-starts-with-dash` is rejected with a typed validation error. -/
theorem C2_validate_jail_name_witness :
    validate_jail_name (some "testjail") = .ok () ∧
    (∃ m, validate_jail_name (some "-starts-with-dash") =
      .error (.connectionFailure m)) := by
  constructor
  · exact (C2_validate_jail_name.1 "testjail").mpr
      ⟨⟨'t', ['e', 's', 't', 'j', 'a', 'i', 'l'], by decide, by decide,
        by decide⟩, by decide⟩
  · rcases C2_validate_jail_name.2.1 "-starts-with-dash" with h | h
    · exact absurd ((C2_validate_jail_name.1 "-starts-with-dash").mp h)
        (by rintro ⟨⟨c, cs, heq, hc, -⟩, -⟩; revert hc; cases heq; decide)
    · exact h

/-! ## C3 -/

/-- C3: `_transform_path` collapses every leading-tilde prefix (with or
without a username portion) onto the configured staging root, for any
staging root: `~/file.txt`, `~user/file.txt` and `~root/config` become
`<remote_tmp>/file.txt` resp. `<remote_tmp>/config`; a non-leading tilde
is untouched (`/absolute/~/path` is returned unchanged); `None` and the
empty string are returned unchanged. -/
theorem C3_transform_path (tmp : String) :
    _transform_path tmp (some "~/file.txt") = .ok (some (tmp ++ "/file.txt")) ∧
    _transform_path tmp (some "~user/file.txt") =
      .ok (some (tmp ++ "/file.txt")) ∧
    _transform_path tmp (some "~root/config") = .ok (some (tmp ++ "/config")) ∧
    _transform_path tmp (some "/absolute/~/path") =
      .ok (some "/absolute/~/path") ∧
    _transform_path tmp none = .ok none ∧
    _transform_path tmp (some "") = .ok (some "") := by
  refine ⟨?_, ?_, ?_, rfl, rfl, rfl⟩ <;> rfl

/-! ## C4 -/

/-- C4: with jail `testjail`, user `root`, escalation `doas`, the token
list `["echo", None, "hello", None]` drops the `None` tokens to the
payload `echo hello`, builds exactly the line
`doas jexec testjail /bin/sh -c 'echo hello'`, and for every transport
answering that line with `(0, b"hello\n", b"")`, `exec_command` returns
that triple unchanged. -/
theorem C4_exec_command_none_tokens :
    payloadOfCommand (.tokens [some "echo", none, some "hello", none]) =
      .ok "echo hello" ∧
    build_jail_command testSettings "echo hello" = .ok echoHelloLine ∧
    (∀ exec : String → ExecOutcome,
      exec echoHelloLine = .res 0 "hello\n" "" →
      exec_command testSettings exec
        (.tokens [some "echo", none, some "hello", none]) =
        .ok (0, "hello\n", "")) := by
  refine ⟨by decide, by decide, ?_⟩
  intro exec h
  have hp : payloadOfCommand
      (Command.tokens [some "echo", none, some "hello", none]) =
      .ok "echo hello" := by decide
  have hb : build_jail_command testSettings "echo hello" =
      .ok echoHelloLine := by decide
  simp [exec_command, hp, hb, h]

/-- C4 witness: with the concrete transport `echoHelloExec` the
end-to-end scenario returns `(0, "hello\n", "")`. -/
theorem C4_exec_command_none_tokens_witness :
    exec_command testSettings echoHelloExec
      (.tokens [some "echo", none, some "hello", none]) =
      .ok (0, "hello\n", "") :=
  C4_exec_command_none_tokens.2.2 echoHelloExec (by decide)

/-! ## C5 -/

/-- C5: whenever the target-directory creation and the staging upload
succeed but the final move into the jail exits non-zero, `put_file`
issues a best-effort `rm -f` cleanup of the staging file and fails with
a transfer error containing "Failed to move file to jail directory".
The statement holds for every transport, whatever its answer to the
cleanup command, so a failing cleanup is swallowed and never replaces
the primary error. -/
theorem C5_put_file_move_failure
    (st : JailSettings) (tmp jail_root staging inp outp dst : String)
    (tr : Transport) (o1 e1 o2 e2 : String) (rc : Int)
    (htrans : transformStr tmp outp = .ok dst)
    (hmkdir : tr.exec (escalPart st.privilege_escalation ++ "mkdir -p " ++
      jail_root ++ dirname dst) = .res 0 o1 e1)
    (hupload : tr.upload inp staging = none)
    (hmv : tr.exec (escalPart st.privilege_escalation ++ "mv " ++ staging ++
      " " ++ jail_root ++ dst) = .res rc o2 e2)
    (hrc : rc ≠ 0) :
    (∃ m, (put_file st tmp tr jail_root staging inp outp).1 =
        .error (.ansibleError m) ∧
      strContains m "Failed to move file to jail directory" = true) ∧
    Ev.cmd ("rm -f " ++ staging) ∈
      (put_file st tmp tr jail_root staging inp outp).2 := by
  have hrc' : (rc == 0) = false := by
    rw [beq_eq_false_iff_ne]
    exact hrc
  constructor
  · refine ⟨"Failed to move file to jail directory: " ++ e2, ?_,
      strContains_append_left _ _ _ (by decide)⟩
    simp [put_file, htrans, hmkdir, hupload, hmv, hrc']
  · simp [put_file, htrans, hmkdir, hupload, hmv, hrc']

/-- C5 witness: the concrete move-failure scenario of the test-suite —
destination `/tmp/testfile`, jail root `/jail/testjail`, a transport
whose `mv` fails — yields the "Failed to move file to jail directory"
error and a `rm -f` cleanup of the staging file. -/
theorem C5_put_file_move_failure_witness :
    (∃ m, (put_file testSettings "/tmp/.ansible/tmp" moveFailTransport
        "/jail/testjail" "/tmp/ansible-jailexec-tmp0" "/local/file"
        "/tmp/testfile").1 = .error (.ansibleError m) ∧
      strContains m "Failed to move file to jail directory" = true) ∧
    Ev.cmd ("rm -f " ++ "/tmp/ansible-jailexec-tmp0") ∈
      (put_file testSettings "/tmp/.ansible/tmp" moveFailTransport
        "/jail/testjail" "/tmp/ansible-jailexec-tmp0" "/local/file"
        "/tmp/testfile").2 :=
  C5_put_file_move_failure testSettings "/tmp/.ansible/tmp" "/jail/testjail"
    "/tmp/ansible-jailexec-tmp0" "/local/file" "/tmp/testfile" "/tmp/testfile"
    moveFailTransport "" "" "" "Move failed" 1
    (by decide) (by decide) rfl (by decide) (by decide)

/-! ## C6 -/

/-- C6: whenever the remote existence check `test -f <jailroot>/<src>`
exits non-zero, `fetch_file` fails with a transfer error containing
"does not exist in jail" and performs no download call over the
transport. -/
theorem C6_fetch_file_not_exists
    (st : JailSettings) (tmp jail_root inp outp src o e : String)
    (tr : Transport) (rc : Int)
    (htrans : transformStr tmp inp = .ok src)
    (htest : tr.exec ("test -f " ++ jail_root ++ src) = .res rc o e)
    (hrc : rc ≠ 0) :
    (∃ m, (fetch_file st tmp tr jail_root inp outp).1 =
        .error (.ansibleError m) ∧
      strContains m "does not exist in jail" = true) ∧
    ∀ ev ∈ (fetch_file st tmp tr jail_root inp outp).2,
      ev.isDownload = false := by
  have hrc' : (rc == 0) = false := by
    rw [beq_eq_false_iff_ne]
    exact hrc
  constructor
  · refine ⟨"File " ++ src ++ " does not exist in jail", ?_, ?_⟩
    · simp [fetch_file, htrans, htest, hrc']
    · exact strContains_append_right _ _ _ (by decide)
  · intro ev hev
    simp [fetch_file, htrans, htest, hrc'] at hev
    simp [hev, Ev.isDownload]

/-- C6 witness: the concrete scenario of `test_fetch_file_not_exists` —
source `/tmp/nonexistent`, jail root `/jail/testjail`, a transport whose
existence check exits 1 — yields the "does not exist in jail" error and
no download event. -/
theorem C6_fetch_file_not_exists_witness :
    (∃ m, (fetch_file testSettings "/tmp/.ansible/tmp" allFailTransport
        "/jail/testjail" "/tmp/nonexistent" "/local/file").1 =
        .error (.ansibleError m) ∧
      strContains m "does not exist in jail" = true) ∧
    ∀ ev ∈ (fetch_file testSettings "/tmp/.ansible/tmp" allFailTransport
        "/jail/testjail" "/tmp/nonexistent" "/local/file").2,
      ev.isDownload = false :=
  C6_fetch_file_not_exists testSettings "/tmp/.ansible/tmp" "/jail/testjail"
    "/tmp/nonexistent" "/local/file" "/tmp/nonexistent" "" ""
    allFailTransport 1 (by decide) (by decide) (by decide)

/-! ## C7 -/

theorem get_jail_root_trace (st : ConnState) (tr : Transport)
    (hcache : st.jail_root_cache = none) :
    (_get_jail_root st tr).2.2 = [Ev.cmd (discoveryCmd st.settings)] := by
  rcases htr : tr.exec (discoveryCmd st.settings) with ⟨rc, out, err⟩ | m
  · by_cases hb : (rc == 0) = true
    · by_cases hemp : (rstrip (firstLine out)).data.isEmpty = true
      · simp [_get_jail_root, hcache, htr, hb, hemp]
      · simp [_get_jail_root, hcache, htr, hb, hemp]
    · simp [_get_jail_root, hcache, htr, hb]
  · simp [_get_jail_root, hcache, htr]

/-- C7: with an empty cache, a successful `_get_jail_root` issues
exactly one remote discovery call; calling it again returns the same
root from the cache with no remote call; `close` clears the cache and
the connected flag, so a further `_get_jail_root` after `close` issues a
fresh discovery call. -/
theorem C7_get_jail_root_caching
    (st : ConnState) (tr : Transport) (r : String) (st1 : ConnState)
    (evs : List Ev)
    (hcache : st.jail_root_cache = none)
    (h : _get_jail_root st tr = (.ok r, st1, evs)) :
    evs = [Ev.cmd (discoveryCmd st.settings)] ∧
    _get_jail_root st1 tr = (.ok r, st1, []) ∧
    (close st1).jail_root_cache = none ∧
    (close st1).connected = false ∧
    (_get_jail_root (close st1) tr).2.2 =
      [Ev.cmd (discoveryCmd st.settings)] := by
  rcases htr : tr.exec (discoveryCmd st.settings) with ⟨rc, out, err⟩ | m
  · by_cases hb : (rc == 0) = true
    · by_cases hemp : (rstrip (firstLine out)).data.isEmpty = true
      · exfalso
        simp [_get_jail_root, hcache, htr, hb, hemp] at h
      · simp [_get_jail_root, hcache, htr, hb, hemp] at h
        obtain ⟨h1, h2, h3⟩ := h
        subst h1
        subst h2
        subst h3
        exact ⟨rfl, rfl, rfl, rfl, get_jail_root_trace _ tr rfl⟩
    · exfalso
      simp [_get_jail_root, hcache, htr, hb] at h
  · exfalso
    simp [_get_jail_root, hcache, htr] at h

/-- C7 witness: the concrete discovery scenario — fresh state, transport
answering `/jail/testjail\n` — issues one discovery call, the repeated
call is served from the cache with no remote call, and after `close` the
trace shows a fresh discovery call. -/
theorem C7_get_jail_root_caching_witness :
    ([Ev.cmd "doas jls -j testjail path"] =
      [Ev.cmd (discoveryCmd freshState.settings)]) ∧
    (_get_jail_root ⟨testSettings, some "/jail/testjail", true⟩
        jailRootTransport =
      (.ok "/jail/testjail", ⟨testSettings, some "/jail/testjail", true⟩,
        [])) ∧
    ((close ⟨testSettings, some "/jail/testjail", true⟩).jail_root_cache =
      none) ∧
    ((close ⟨testSettings, some "/jail/testjail", true⟩).connected =
      false) ∧
    ((_get_jail_root (close ⟨testSettings, some "/jail/testjail", true⟩)
        jailRootTransport).2.2 =
      [Ev.cmd (discoveryCmd freshState.settings)]) := by
  have h := C7_get_jail_root_caching freshState jailRootTransport
    "/jail/testjail" ⟨testSettings, some "/jail/testjail", true⟩
    [Ev.cmd "doas jls -j testjail path"] rfl (by decide)
  exact ⟨h.1.symm ▸ rfl, h.2.1, h.2.2.1, h.2.2.2.1, h.2.2.2.2⟩

/-! ## C8 -/

/-- C8: with an empty cache, `_get_jail_root` fails with "Could not
determine jail root path" on a transport exception or a non-zero exit
of the discovery command; on a zero exit it returns the first output
line with trailing whitespace stripped and stores it in the cache,
except that an empty stripped result fails "Empty jail root path". -/
theorem C8_get_jail_root_discovery
    (st : ConnState) (tr : Transport)
    (hcache : st.jail_root_cache = none) :
    (∀ m, tr.exec (discoveryCmd st.settings) = .exn m →
      ∃ m2, (_get_jail_root st tr).1 = .error (.ansibleError m2) ∧
        strContains m2 "Could not determine jail root path" = true) ∧
    (∀ (rc : Int) (out err : String),
      tr.exec (discoveryCmd st.settings) = .res rc out err → rc ≠ 0 →
      ∃ m2, (_get_jail_root st tr).1 = .error (.ansibleError m2) ∧
        strContains m2 "Could not determine jail root path" = true) ∧
    (∀ out err, tr.exec (discoveryCmd st.settings) = .res 0 out err →
      rstrip (firstLine out) ≠ "" →
      (_get_jail_root st tr).1 = .ok (rstrip (firstLine out)) ∧
      ((_get_jail_root st tr).2.1).jail_root_cache =
        some (rstrip (firstLine out))) ∧
    (∀ out err, tr.exec (discoveryCmd st.settings) = .res 0 out err →
      rstrip (firstLine out) = "" →
      ∃ m2, (_get_jail_root st tr).1 = .error (.ansibleError m2) ∧
        strContains m2 "Empty jail root path" = true) := by
  refine ⟨?_, ?_, ?_, ?_⟩
  · intro m htr
    refine ⟨"Could not determine jail root path: " ++ m, ?_,
      strContains_append_left _ _ _ (by decide)⟩
    simp [_get_jail_root, hcache, htr]
  · intro rc out err htr hrc
    have hrc' : (rc == 0) = false := by
      rw [beq_eq_false_iff_ne]
      exact hrc
    refine ⟨"Could not determine jail root path: " ++ err, ?_,
      strContains_append_left _ _ _ (by decide)⟩
    simp [_get_jail_root, hcache, htr, hrc']
  · intro out err htr hne
    have hemp : (rstrip (firstLine out)).data.isEmpty = false :=
      data_isEmpty_false hne
    constructor
    · simp [_get_jail_root, hcache, htr, hemp]
    · simp [_get_jail_root, hcache, htr, hemp]
  · intro out err htr hemp
    have he : (rstrip (firstLine out)).data.isEmpty = true := by
      rw [hemp]
      rfl
    refine ⟨"Empty jail root path returned", ?_, by decide⟩
    simp [_get_jail_root, hcache, htr, he]

/-- C8 witness: the four concrete discovery scenarios of the test-suite
— transport exception, exit 1, output `/jail/testjail\n`, and empty
output — yield the respective results. -/
theorem C8_get_jail_root_discovery_witness :
    (∃ m2, (_get_jail_root freshState exnTransport).1 =
        .error (.ansibleError m2) ∧
      strContains m2 "Could not determine jail root path" = true) ∧
    (∃ m2, (_get_jail_root freshState allFailTransport).1 =
        .error (.ansibleError m2) ∧
      strContains m2 "Could not determine jail root path" = true) ∧
    ((_get_jail_root freshState jailRootTransport).1 =
      .ok (rstrip (firstLine "/jail/testjail\n")) ∧
     ((_get_jail_root freshState jailRootTransport).2.1).jail_root_cache =
      some (rstrip (firstLine "/jail/testjail\n"))) ∧
    (∃ m2, (_get_jail_root freshState emptyOutTransport).1 =
        .error (.ansibleError m2) ∧
      strContains m2 "Empty jail root path" = true) := by
  refine ⟨?_, ?_, ?_, ?_⟩
  · exact (C8_get_jail_root_discovery freshState exnTransport rfl).1
      "SSH failure" rfl
  · exact (C8_get_jail_root_discovery freshState allFailTransport rfl).2.1
      1 "" "" rfl (by decide)
  · exact (C8_get_jail_root_discovery freshState jailRootTransport rfl).2.2.1
      "/jail/testjail\n" "" rfl (by decide)
  · exact (C8_get_jail_root_discovery freshState emptyOutTransport rfl).2.2.2
      "" "" rfl (by decide)

/-! ## C9 -/

/-- C9: with the sample configuration, any non-integer `timeout` value
does not fail the configuration load — `_get_jail_configuration`
completes and silently falls back to the default timeout — while any
integer value is stored as the connection timeout unchanged. -/
theorem C9_timeout_fallback :
    (∀ tv : ConfigValue, (∀ n : Int, tv ≠ .vint n) →
      ∃ cfg, _get_jail_configuration "testjail" "root" (sampleOpts tv) =
          .ok cfg ∧
        cfg.connection_timeout = defaultTimeout) ∧
    (∀ n : Int,
      ∃ cfg,
        _get_jail_configuration "testjail" "root" (sampleOpts (.vint n)) =
          .ok cfg ∧
        cfg.connection_timeout = n) := by
  constructor
  · intro tv h
    cases tv with
    | vint n => exact absurd rfl (h n)
    | vstr s => exact ⟨_, rfl, rfl⟩
    | vnone => exact ⟨_, rfl, rfl⟩
  · intro n
    exact ⟨_, rfl, rfl⟩

/-- C9 witness: the invalid string value `"invalid"` loads with the
default timeout, and the integer value `60` is stored unchanged. -/
theorem C9_timeout_fallback_witness :
    (∃ cfg, _get_jail_configuration "testjail" "root"
        (sampleOpts (.vstr "invalid")) = .ok cfg ∧
      cfg.connection_timeout = defaultTimeout) ∧
    (∃ cfg, _get_jail_configuration "testjail" "root"
        (sampleOpts (.vint 60)) = .ok cfg ∧
      cfg.connection_timeout = 60) :=
  ⟨C9_timeout_fallback.1 (.vstr "invalid")
      (fun _ h => ConfigValue.noConfusion h),
   C9_timeout_fallback.2 60⟩

end Jailexec
